import Mathlib

/-!
# LIS client shell (`frontend/src/App.jsx`)

A shallow embedding of the single React component `App`: its state, the
durable key-value store (`localStorage`), the render branch, the token effect and
the five handlers.

Modelling conventions.

* The React state cells and `localStorage` are gathered in one record `AppState`.
  A call `setX(v)` replaces the field `x` of the state current when it runs.
* An `async` handler is split at its single `await`: `handleXRequest c` is the
  request issued, `handleX c outcome s` is the code after the `await`. Here `c`
  is the state of the render whose closure the handler is (the values of
  `username`, `patients`, ... it captured when the form was submitted) and `s` is
  the state current when the response arrives.
* `try { ... } catch (err) { ... }` is `tryCatch` over `Except`: the awaited
  request either yields its response data or throws an `AxiosError`.
* JavaScript truthiness is kept: `null` and the empty string are falsy.
* Response payloads have the shapes of the backend interface: `access_token`,
  `username` and `detail` are strings when present, the patient list is an array of
  patient objects and a created patient is a patient object.
* The builtin `JSON.parse` is a parameter `parse` of what calls it; it throws on text
  that is not JSON.
-/

namespace LIS

/-! ## Values -/

/-- JSON values, as held in the `user` state cell and in the fields of a patient. -/
inductive JSVal where
  | null
  | bool (b : Bool)
  | num (n : Int)
  | str (s : String)
  | arr (items : List JSVal)
  | obj (fields : List (String × JSVal))

/-- A patient object, as the list and create responses carry it: its fields. The dashboard
reads `p.id`, `p.first_name`, `p.last_name` and `p.dob` of every cached patient (lines 212 to
216). -/
abbrev Patient := List (String × JSVal)

/-- Truthiness of a value that is `null` or a string (`if (token)`, `!token`). -/
def truthy : Option String → Bool
  | none => false
  | some v => v != ""

/-- The expression `a || b` for `a` a string, `null` or `undefined`, and `b` a string. -/
def jsOr (a : Option String) (b : String) : String :=
  match a with
  | some v => if v = "" then b else v
  | none => b

/-- The constant `API`. -/
def API : String := "http://localhost:8000"

/-! ## Durable storage -/

/-- The browser store `localStorage`: a partial map from keys to strings. -/
abbrev Storage := String → Option String

/-- The call `localStorage.getItem(k)`: the stored string, or `null`. -/
def Storage.getItem (st : Storage) (k : String) : Option String := st k

/-- The call `localStorage.setItem(k, v)`. -/
def Storage.setItem (st : Storage) (k v : String) : Storage :=
  fun key => if key = k then some v else st key

/-- The call `localStorage.removeItem(k)`. -/
def Storage.removeItem (st : Storage) (k : String) : Storage :=
  fun key => if key = k then none else st key

/-- The store with no key. -/
def Storage.empty : Storage := fun _ => none

/-! ## JSON.stringify of the stored user -/

/-- The lowercase hexadecimal digit of a number below sixteen. -/
def hexDigit (n : Nat) : Char :=
  if n < 10 then Char.ofNat (48 + n) else Char.ofNat (87 + n)

/-- The escape `\uXXXX` of a code unit, four lowercase hexadecimal digits. -/
def unicodeEscape (n : Nat) : String :=
  String.mk [Char.ofNat 92, Char.ofNat 117, hexDigit (n / 4096 % 16), hexDigit (n / 256 % 16),
    hexDigit (n / 16 % 16), hexDigit (n % 16)]

/-- One character of a string under `JSON.stringify` (QuoteJSONString). -/
def quoteJSONChar (c : Char) : String :=
  if c.toNat = 8 then String.mk [Char.ofNat 92, Char.ofNat 98]
  else if c.toNat = 9 then String.mk [Char.ofNat 92, Char.ofNat 116]
  else if c.toNat = 10 then String.mk [Char.ofNat 92, Char.ofNat 110]
  else if c.toNat = 12 then String.mk [Char.ofNat 92, Char.ofNat 102]
  else if c.toNat = 13 then String.mk [Char.ofNat 92, Char.ofNat 114]
  else if c.toNat = 34 then String.mk [Char.ofNat 92, Char.ofNat 34]
  else if c.toNat = 92 then String.mk [Char.ofNat 92, Char.ofNat 92]
  else if c.toNat < 32 then unicodeEscape c.toNat
  else String.singleton c

/-- The result of `JSON.stringify` on a string: the quoted, escaped string. -/
def quoteJSONString (s : String) : String :=
  String.singleton (Char.ofNat 34) ++ String.join (s.toList.map quoteJSONChar)
    ++ String.singleton (Char.ofNat 34)

/-- The object literal `{ username }`. -/
def userObject (username : String) : JSVal := JSVal.obj [("username", JSVal.str username)]

/-- The string `JSON.stringify({ username })`. -/
def stringifyUser (username : String) : String :=
  String.mk [Char.ofNat 123] ++ quoteJSONString "username" ++ ":" ++ quoteJSONString username
    ++ String.mk [Char.ofNat 125]

/-! ## Application state -/

/-- The state cells of `App` (lines 8 to 20) together with `localStorage`. -/
structure AppState where
  page : String
  token : Option String
  user : JSVal
  username : String
  password : String
  role : String
  firstName : String
  lastName : String
  dob : String
  patients : List Patient
  message : String
  storage : Storage

def setPage (v : String) (s : AppState) : AppState := { s with page := v }
def setToken (v : Option String) (s : AppState) : AppState := { s with token := v }
def setUser (v : JSVal) (s : AppState) : AppState := { s with user := v }
def setUsername (v : String) (s : AppState) : AppState := { s with username := v }
def setPassword (v : String) (s : AppState) : AppState := { s with password := v }
def setRole (v : String) (s : AppState) : AppState := { s with role := v }
def setFirstName (v : String) (s : AppState) : AppState := { s with firstName := v }
def setLastName (v : String) (s : AppState) : AppState := { s with lastName := v }
def setDob (v : String) (s : AppState) : AppState := { s with dob := v }
def setPatients (v : List Patient) (s : AppState) : AppState := { s with patients := v }
def setMessage (v : String) (s : AppState) : AppState := { s with message := v }

/-- The call `localStorage.setItem(k, v)` as a step on the state. -/
def localStorageSetItem (k v : String) (s : AppState) : AppState :=
  { s with storage := s.storage.setItem k v }

/-- The call `localStorage.removeItem(k)` as a step on the state. -/
def localStorageRemoveItem (k : String) (s : AppState) : AppState :=
  { s with storage := s.storage.removeItem k }

/-! ## Requests and failures -/

/-- The body of a request. -/
inductive Body where
  | none
  | json (fields : List (String × String))
  | text (s : String)
deriving DecidableEq

/-- A request handed to `axios`. -/
structure Request where
  method : String
  url : String
  body : Body
  headers : List (String × String)
deriving DecidableEq

/-- The field `err.response.data` of a failure. -/
structure ErrorData where
  detail : Option String

/-- The field `err.response` of a failure. -/
structure ErrorResponse where
  data : Option ErrorData

/-- The error a failed `axios` call throws. -/
structure AxiosError where
  message : String
  response : Option ErrorResponse

/-- The chain `err.response?.data?.detail`. -/
def AxiosError.detail (err : AxiosError) : Option String :=
  match err.response with
  | some r =>
    match r.data with
    | some d => d.detail
    | none => none
  | none => none

/-- The statement `try { body } catch (err) { handler }`. -/
def tryCatch {ε α : Type} (body : Except ε α) (handler : ε → Except ε α) : Except ε α :=
  match body with
  | Except.ok a => Except.ok a
  | Except.error e => handler e

/-! ## Rendering (lines 101 to 223) -/

/-- What `App` returns: which of the three trees, with the state it shows. -/
inductive View where
  | login (username password message : String)
  | register (username password role message : String)
  | dashboard (user : JSVal) (firstName lastName dob : String) (patients : List Patient)
      (message : String)

/-- Whether a view is the dashboard tree. -/
def View.isDashboard : View → Bool
  | View.dashboard _ _ _ _ _ _ => true
  | _ => false

/-- The `return` of `App` (lines 101 to 223) for a state. -/
def viewOf (s : AppState) : View :=
  if !truthy s.token then
    if s.page = "login" then View.login s.username s.password s.message
    else View.register s.username s.password s.role s.message
  else View.dashboard s.user s.firstName s.lastName s.dob s.patients s.message

/-- One call of `App` for a state. Every call evaluates the arguments of the `useState` calls
again (lines 8 to 20; after the first render their values are discarded), so
`JSON.parse(localStorage.getItem('user') || 'null')` of line 10 runs on every render, and when
it throws the call of `App` throws and nothing is rendered. -/
def render (parse : String → Except String JSVal) (s : AppState) : Except String View :=
  (parse (jsOr (s.storage.getItem "user") "null")).bind fun _ => Except.ok (viewOf s)

/-! ## Handlers -/

/-- The request of `loadPatients` (line 30). -/
def loadPatientsRequest : Request :=
  { method := "GET", url := API ++ "/patients/", body := Body.none, headers := [] }

/-- The function `loadPatients` after its `await` (lines 28 to 35). -/
def loadPatients (outcome : Except AxiosError (List Patient)) (s : AppState) :
    Except AxiosError AppState :=
  tryCatch
    (outcome.bind fun data => Except.ok (setPatients data s))
    (fun _ => Except.ok (setMessage "Error loading patients" s))

/-- The effect `useEffect(() => { if (token) loadPatients(); }, [token])` for a token value. -/
def tokenEffect (token : Option String) : List Request :=
  if truthy token then [loadPatientsRequest] else []

/-- The requests the token effect issues after a re-render: it runs only when `token` changed. -/
def effectAfter (before after : AppState) : List Request :=
  if after.token = before.token then [] else tokenEffect after.token

/-- The request of `handleRegister` (lines 40 to 44). -/
def handleRegisterRequest (c : AppState) : Request :=
  { method := "POST", url := API ++ "/auth/register",
    body := Body.json [("username", c.username), ("password", c.password), ("role", c.role)],
    headers := [] }

/-- The function `handleRegister` after its `await` (lines 37 to 52); the response data is
its `username`. -/
def handleRegister (_c : AppState) (outcome : Except AxiosError String) (s : AppState) :
    Except AxiosError AppState :=
  tryCatch
    (outcome.bind fun name =>
      Except.ok (s |> setMessage ("Registered! User: " ++ name) |> setPage "login"
        |> setUsername "" |> setPassword ""))
    (fun err => Except.ok (setMessage ("Error: " ++ jsOr err.detail err.message) s))

/-- The body string of the login request (line 59). -/
def loginBody (username password : String) : String :=
  "username=" ++ username ++ "&password=" ++ password

/-- The request of `handleLogin` (lines 57 to 61). -/
def handleLoginRequest (c : AppState) : Request :=
  { method := "POST", url := API ++ "/auth/token",
    body := Body.text (loginBody c.username c.password),
    headers := [("Content-Type", "application/x-www-form-urlencoded")] }

/-- The function `handleLogin` after its `await` (lines 54 to 72); the response data is its
`access_token`. -/
def handleLogin (c : AppState) (outcome : Except AxiosError String) (s : AppState) :
    Except AxiosError AppState :=
  tryCatch
    (outcome.bind fun tk =>
      Except.ok (s |> setToken (some tk) |> localStorageSetItem "token" tk
        |> localStorageSetItem "user" (stringifyUser c.username)
        |> setUser (userObject c.username) |> setPage "dashboard" |> setMessage "Logged in!"))
    (fun err => Except.ok (setMessage ("Login failed: " ++ jsOr err.detail err.message) s))

/-- The header value of the add-patient request: the template string with `token` spliced in. -/
def bearer (token : Option String) : String :=
  "Bearer " ++ (match token with
    | some t => t
    | none => "null")

/-- The request of `handleAddPatient` (lines 77 to 81). -/
def handleAddPatientRequest (c : AppState) : Request :=
  { method := "POST", url := API ++ "/patients/",
    body := Body.json [("first_name", c.firstName), ("last_name", c.lastName), ("dob", c.dob)],
    headers := [("Authorization", bearer c.token)] }

/-- The function `handleAddPatient` after its `await` (lines 74 to 90); `patients` in
`[...patients, res.data]` is the closure's variable. -/
def handleAddPatient (c : AppState) (outcome : Except AxiosError Patient) (s : AppState) :
    Except AxiosError AppState :=
  tryCatch
    (outcome.bind fun data =>
      Except.ok (s |> setPatients (c.patients ++ [data]) |> setFirstName "" |> setLastName ""
        |> setDob "" |> setMessage "Patient added!"))
    (fun err => Except.ok (setMessage ("Error: " ++ jsOr err.detail err.message) s))

/-- The function `handleLogout` (lines 92 to 99). -/
def handleLogout (s : AppState) : AppState :=
  s |> setToken none |> setUser JSVal.null |> localStorageRemoveItem "token"
    |> localStorageRemoveItem "user" |> setPage "login" |> setMessage "Logged out"

/-- The requests a click on Logout causes: the handler issues none itself, and the token effect
runs on the re-render. -/
def logoutRequests (s : AppState) : List Request :=
  effectAfter s (handleLogout s)

/-! ## Startup -/

/-- The initial values of the state cells (lines 8 to 20). The builtin `JSON.parse` is the
parameter `parse`; it throws on text that is not JSON. -/
def initialState (parse : String → Except String JSVal) (storage : Storage) :
    Except String AppState :=
  (parse (jsOr (storage.getItem "user") "null")).bind fun user =>
    Except.ok
      { page := "login", token := storage.getItem "token", user := user,
        username := "", password := "", role := "technician",
        firstName := "", lastName := "", dob := "",
        patients := [], message := "", storage := storage }

/-- The first render and mount: the initial state and the requests the token effect issues. -/
def launch (parse : String → Except String JSVal) (storage : Storage) :
    Except String (AppState × List Request) :=
  (initialState parse storage).bind fun s => Except.ok (s, tokenEffect s.token)

/-! ## Decoding a form body -/

/-- The UTF-8 bytes of a character. -/
def utf8Char (c : Char) : List Nat :=
  let n := c.toNat
  if n < 128 then [n]
  else if n < 2048 then [192 + n / 64, 128 + n % 64]
  else if n < 65536 then [224 + n / 4096, 128 + n / 64 % 64, 128 + n % 64]
  else [240 + n / 262144, 128 + n / 4096 % 64, 128 + n / 64 % 64, 128 + n % 64]

/-- The UTF-8 bytes of a string: what goes on the wire for a string body. -/
def utf8 (s : String) : List Nat := s.toList.flatMap utf8Char

/-- The value of an ASCII hexadecimal digit, when the byte is one. -/
def hexValue (b : Nat) : Option Nat :=
  if 48 ≤ b ∧ b ≤ 57 then some (b - 48)
  else if 65 ≤ b ∧ b ≤ 70 then some (b - 55)
  else if 97 ≤ b ∧ b ≤ 102 then some (b - 87)
  else none

/-- Percent-decoding of a byte sequence (URL Standard): `%` followed by two hexadecimal
digits is the byte they denote; any other byte stands for itself. -/
def percentDecode : List Nat → List Nat
  | [] => []
  | 37 :: h :: l :: rest =>
    match hexValue h, hexValue l with
    | some x, some y => (16 * x + y) :: percentDecode rest
    | _, _ => 37 :: percentDecode (h :: l :: rest)
  | b :: rest => b :: percentDecode rest

/-- Splitting a byte sequence on every occurrence of a byte. -/
def splitOnByte (sep : Nat) : List Nat → List (List Nat)
  | [] => [[]]
  | b :: rest =>
    if b = sep then [] :: splitOnByte sep rest
    else
      match splitOnByte sep rest with
      | [] => [[b]]
      | piece :: pieces => (b :: piece) :: pieces

/-- Replacing `+` by a space. -/
def plusToSpace (bs : List Nat) : List Nat := bs.map fun b => if b = 43 then 32 else b

/-- One `name=value` piece of a form body: split at the first `=`, then decode both sides. -/
def decodeField (piece : List Nat) : List Nat × List Nat :=
  let name := piece.takeWhile (fun b => b != 61)
  let value := (piece.dropWhile (fun b => b != 61)).drop 1
  (percentDecode (plusToSpace name), percentDecode (plusToSpace value))

/-- The `application/x-www-form-urlencoded` parser of the URL Standard, on the bytes of a
body: split on `&`, skip empty pieces, decode each piece. Names and values are given as byte
strings (their UTF-8 decoding is the identity on well-formed text). -/
def formDecode (body : List Nat) : List (List Nat × List Nat) :=
  ((splitOnByte 38 body).filter (fun piece => !piece.isEmpty)).map decodeField

/-! ## Sample inputs -/

/-- The state of a fresh launch over an empty store. -/
def blank : AppState :=
  { page := "login", token := none, user := JSVal.null,
    username := "", password := "", role := "technician",
    firstName := "", lastName := "", dob := "",
    patients := [], message := "", storage := Storage.empty }

/-- The builtin `JSON.parse` on the one text the sample launches hand it: `null` parses to
`null`; every other text is left out of this table and reported as an error. -/
def parseNull (text : String) : Except String JSVal :=
  if text = "null" then Except.ok JSVal.null else Except.error "SyntaxError"

/-- The builtin `JSON.parse` on the texts the sample logins hand it as well: `null`, and the
stored user of the usernames `alice` and the empty string; every other text is left out of
this table and reported as an error. -/
def parseSample (text : String) : Except String JSVal :=
  if text = stringifyUser "" then Except.ok (userObject "")
  else if text = stringifyUser "alice" then Except.ok (userObject "alice")
  else parseNull text

/-- A patient object as the backend returns it. -/
def patient (id : Int) (first last dob : String) : Patient :=
  [("id", JSVal.num id), ("first_name", JSVal.str first),
    ("last_name", JSVal.str last), ("dob", JSVal.str dob)]

/-- The dashboard of a signed-in user with the add-patient form filled in and an empty cache. -/
def janeForm : AppState :=
  { blank with token := some "abc", page := "dashboard",
               firstName := "Jane", lastName := "Doe", dob := "1990-01-01" }

/-- The login form filled in with `alice` and `secret`. -/
def aliceForm : AppState := { blank with username := "alice", password := "secret" }

/-- A failure whose response carries a `detail`. -/
def failureWith (detail message : String) : AxiosError :=
  { message := message, response := some { data := some { detail := some detail } } }

/-! ## Rendering gate -/

/-- Handling an outcome never lets the error out of `loadPatients`, and touches only the
patient cache or the message. -/
theorem loadPatients_eq (outcome : Except AxiosError (List Patient)) (s : AppState) :
    loadPatients outcome s = Except.ok (match outcome with
      | Except.ok data => { s with patients := data }
      | Except.error _ => { s with message := "Error loading patients" }) := by
  cases outcome <;> rfl

/-- A token is truthy exactly when it is neither `null` nor the empty string. -/
theorem truthy_eq_true_iff (t : Option String) :
    truthy t = true ↔ t ≠ none ∧ t ≠ some "" := by
  cases t with
  | none => simp [truthy]
  | some v => simp [truthy]

/-- The dashboard tree is returned exactly for a truthy token. -/
theorem viewOf_isDashboard (s : AppState) : (viewOf s).isDashboard = truthy s.token := by
  unfold viewOf
  cases truthy s.token
  · by_cases hp : s.page = "login" <;> simp [hp, View.isDashboard]
  · simp [View.isDashboard]

/-- A call of `App` returns its tree when `JSON.parse` accepts the stored user. -/
theorem render_of_parse (parse : String → Except String JSVal) (s : AppState) (v : JSVal)
    (h : parse (jsOr (s.storage.getItem "user") "null") = Except.ok v) :
    render parse s = Except.ok (viewOf s) := by
  simp [render, h, Except.bind]

/-- A call of `App` throws when `JSON.parse` rejects the stored user. -/
theorem render_of_parse_error (parse : String → Except String JSVal) (s : AppState)
    (e : String) (h : parse (jsOr (s.storage.getItem "user") "null") = Except.error e) :
    render parse s = Except.error e := by
  simp [render, h, Except.bind]

/-- The JSON text of a user is never the empty string. -/
theorem stringifyUser_ne_empty (u : String) : stringifyUser u ≠ "" := by
  intro h
  have hl := congrArg String.length h
  simp only [stringifyUser, String.length_append] at hl
  have h1 : (String.mk [Char.ofNat 123]).length = 1 := by decide
  have h2 : ("" : String).length = 0 := by decide
  omega

/-- The expression `d || b` is `d` for a non-empty string `d`. -/
theorem jsOr_of_nonempty (d b : String) (h : d ≠ "") : jsOr (some d) b = d := by
  simp [jsOr, h]

/-- C1, as stated, fails: with the empty string as token the token is present (not `null`),
yet the shell renders the login form, not the dashboard. -/
theorem C1_empty_token_renders_login :
    ({ blank with token := some "" } : AppState).token ≠ none ∧
    render parseNull { blank with token := some "" } = Except.ok (View.login "" "" "") ∧
    (render parseNull { blank with token := some "" }).map View.isDashboard
      = Except.ok false :=
  ⟨by simp, rfl, rfl⟩

/-- C1, amended: for every state whose stored `user` entry `JSON.parse` accepts (an absent or
empty entry is read as `null`), the shell renders a view; it is the dashboard exactly when the
token is truthy (neither `null` nor the empty string); otherwise it is the login form when
`page` is `login` and the register form for any other `page`; with the token absent no `page`
gives the dashboard. -/
theorem C1_render_gate (parse : String → Except String JSVal) (s : AppState) (v : JSVal)
    (h : parse (jsOr (s.storage.getItem "user") "null") = Except.ok v) :
    ∃ view : View, render parse s = Except.ok view ∧
      (view.isDashboard = true ↔ s.token ≠ none ∧ s.token ≠ some "") ∧
      (view.isDashboard = false → s.page = "login" →
        view = View.login s.username s.password s.message) ∧
      (view.isDashboard = false → s.page ≠ "login" →
        view = View.register s.username s.password s.role s.message) ∧
      (s.token = none → ∀ pg : String, ∃ w : View,
        render parse { s with page := pg } = Except.ok w ∧ w.isDashboard = false) := by
  refine ⟨viewOf s, render_of_parse parse s v h, ?_, ?_, ?_, ?_⟩
  · rw [← truthy_eq_true_iff, viewOf_isDashboard]
  · intro hd hp
    rw [viewOf_isDashboard] at hd
    simp [viewOf, hd, hp]
  · intro hd hp
    rw [viewOf_isDashboard] at hd
    simp [viewOf, hd, hp]
  · intro ht pg
    refine ⟨viewOf { s with page := pg }, render_of_parse parse { s with page := pg } v h, ?_⟩
    rw [viewOf_isDashboard]
    simp [ht, truthy]

/-- C1, amended, at sample states over the empty store: a token `abc` gives the dashboard, no
token with `page` set to `dashboard` gives the register form, no token on `login` the login
form. -/
theorem C1_render_gate_witness :
    (∃ view : View, render parseNull { blank with token := some "abc" } = Except.ok view ∧
      view.isDashboard = true) ∧
    render parseNull { blank with page := "dashboard" }
      = Except.ok (View.register "" "" "technician" "") ∧
    render parseNull blank = Except.ok (View.login "" "" "") := by
  refine ⟨?_, ?_, ?_⟩
  · obtain ⟨view, hr, hiff, _⟩ :=
      C1_render_gate parseNull { blank with token := some "abc" } JSVal.null rfl
    exact ⟨view, hr, hiff.2 ⟨by simp, by simp⟩⟩
  · obtain ⟨view, hr, hiff, _, hreg, _⟩ :=
      C1_render_gate parseNull { blank with page := "dashboard" } JSVal.null rfl
    have hd : view.isDashboard = false := by
      cases hv : view.isDashboard
      · rfl
      · exact absurd rfl (hiff.1 hv).1
    exact hr.trans (congrArg Except.ok (hreg hd (by decide)))
  · obtain ⟨view, hr, hiff, hlog, _⟩ := C1_render_gate parseNull blank JSVal.null rfl
    have hd : view.isDashboard = false := by
      cases hv : view.isDashboard
      · rfl
      · exact absurd rfl (hiff.1 hv).1
    exact hr.trans (congrArg Except.ok (hlog hd rfl))

/-! ## Login -/

/-- C2, as stated, fails: a successful login whose `access_token` is the empty string leaves a
token that is present (not `null`) with `page` set to `dashboard`, but the rendered view is the
register form, not the dashboard. -/
theorem C2_empty_access_token_not_dashboard :
    (handleLogin blank (Except.ok "") blank).map
        (fun s => (s.token, s.page, render parseSample s))
      = Except.ok (some "", "dashboard",
          Except.ok (View.register "" "" "technician" "Logged in!")) :=
  rfl

/-- C2, amended: after a successful login with `access_token` `tk`, submitted with form
username `c.username`, the token is `tk`, the user is `{username}`, the store holds `token`
with the raw `tk` and `user` with the JSON text of `{username}`, `page` is `dashboard` and the
message is 'Logged in!'; the token is not `null`, and the dashboard is the rendered view
whenever `tk` is not the empty string (`JSON.parse` accepting the user text just stored). -/
theorem C2_login_success (parse : String → Except String JSVal) (c s : AppState)
    (tk : String) :
    ∃ s1 : AppState, handleLogin c (Except.ok tk) s = Except.ok s1 ∧
      s1.token = some tk ∧ s1.user = userObject c.username ∧
      s1.storage.getItem "token" = some tk ∧
      s1.storage.getItem "user" = some (stringifyUser c.username) ∧
      s1.page = "dashboard" ∧ s1.message = "Logged in!" ∧ s1.token ≠ none ∧
      (tk ≠ "" → ∀ v : JSVal, parse (stringifyUser c.username) = Except.ok v →
        render parse s1 = Except.ok (View.dashboard (userObject c.username) s.firstName
          s.lastName s.dob s.patients "Logged in!")) := by
  refine ⟨_, rfl, rfl, rfl, ?_, ?_, rfl, rfl, ?_, ?_⟩
  · simp [Storage.getItem, Storage.setItem, localStorageSetItem, setToken, setUser, setPage,
      setMessage]
  · simp [Storage.getItem, Storage.setItem, localStorageSetItem, setToken, setUser, setPage,
      setMessage]
  · simp [localStorageSetItem, setToken, setUser, setPage, setMessage]
  · intro htk v hv
    have hst : jsOr (some (stringifyUser c.username)) "null" = stringifyUser c.username :=
      jsOr_of_nonempty _ _ (stringifyUser_ne_empty c.username)
    simp [render, viewOf, truthy, htk, localStorageSetItem, setToken, setUser, setPage,
      setMessage, Storage.getItem, Storage.setItem, hst, hv, Except.bind]

/-- C2, amended, at a sample login: user `alice` receives token `abc`. -/
theorem C2_login_success_witness :
    ∃ s1 : AppState,
      handleLogin { blank with username := "alice" } (Except.ok "abc") blank = Except.ok s1 ∧
      s1.token = some "abc" ∧
      s1.storage.getItem "token" = some "abc" ∧
      s1.storage.getItem "user" = some "\x7b\"username\":\"alice\"\x7d" ∧
      render parseSample s1
        = Except.ok (View.dashboard (JSVal.obj [("username", JSVal.str "alice")]) "" "" "" []
            "Logged in!") := by
  obtain ⟨s1, h, ht, _, hst, hsu, _, _, _, hr⟩ :=
    C2_login_success parseSample { blank with username := "alice" } blank "abc"
  exact ⟨s1, h, ht, hst, hsu.trans (by decide),
    hr (by decide) (userObject "alice") rfl⟩

/-! ## Failures -/

/-- C3: handling a failed request of any of the four operations returns normally (no error
leaves the handler) and yields the state it found with only `message` replaced: token, user,
storage, page, patient cache and every form field are unchanged. -/
theorem C3_failure_changes_only_message (c s : AppState) (err : AxiosError) :
    (∃ m, loadPatients (Except.error err) s = Except.ok { s with message := m }) ∧
    (∃ m, handleRegister c (Except.error err) s = Except.ok { s with message := m }) ∧
    (∃ m, handleLogin c (Except.error err) s = Except.ok { s with message := m }) ∧
    (∃ m, handleAddPatient c (Except.error err) s = Except.ok { s with message := m }) :=
  ⟨⟨_, rfl⟩, ⟨_, rfl⟩, ⟨_, rfl⟩, ⟨_, rfl⟩⟩

/-! ## Logout -/

/-- C4: logout leaves token and user `null`, removes both keys from the store, sets `page` to
`login` and the message to 'Logged out', and issues no request; the response of a
list-patients request still pending, success or failure, is then handled without changing
token, user, store or page. -/
theorem C4_logout (s : AppState) :
    (handleLogout s).token = none ∧ (handleLogout s).user = JSVal.null ∧
    (handleLogout s).storage.getItem "token" = none ∧
    (handleLogout s).storage.getItem "user" = none ∧
    (handleLogout s).page = "login" ∧ (handleLogout s).message = "Logged out" ∧
    logoutRequests s = [] ∧
    ∀ outcome : Except AxiosError (List Patient), ∃ s2 : AppState,
      loadPatients outcome (handleLogout s) = Except.ok s2 ∧
      s2.token = none ∧ s2.user = JSVal.null ∧ s2.storage = (handleLogout s).storage ∧
      s2.storage.getItem "token" = none ∧ s2.storage.getItem "user" = none ∧
      s2.page = "login" := by
  have hk : (handleLogout s).storage.getItem "token" = none ∧
      (handleLogout s).storage.getItem "user" = none := by
    simp [handleLogout, Storage.getItem, Storage.removeItem, localStorageRemoveItem, setToken,
      setUser, setPage, setMessage]
  refine ⟨rfl, rfl, hk.1, hk.2, rfl, rfl, ?_, ?_⟩
  · simp [logoutRequests, effectAfter, tokenEffect, truthy, handleLogout,
      localStorageRemoveItem, setToken, setUser, setPage, setMessage]
  · intro outcome
    cases outcome with
    | error e => exact ⟨_, rfl, rfl, rfl, rfl, hk.1, hk.2, rfl⟩
    | ok data => exact ⟨_, rfl, rfl, rfl, rfl, hk.1, hk.2, rfl⟩

/-! ## Register -/

/-- C8: after a successful register returning username `n`, `page` is `login`, the username and
password fields are empty and the message is 'Registered! User: ' followed by `n`; token, user,
store and patient cache are unchanged, so no session is created. -/
theorem C8_register_success (parse : String → Except String JSVal) (c s : AppState)
    (n : String) :
    ∃ s1 : AppState, handleRegister c (Except.ok n) s = Except.ok s1 ∧
      s1.page = "login" ∧ s1.username = "" ∧ s1.password = "" ∧
      s1.message = "Registered! User: " ++ n ∧
      s1.token = s.token ∧ s1.user = s.user ∧ s1.storage = s.storage ∧
      s1.patients = s.patients ∧
      (render parse s1).map View.isDashboard = (render parse s).map View.isDashboard ∧
      effectAfter s s1 = [] := by
  refine ⟨_, rfl, rfl, rfl, rfl, rfl, rfl, rfl, rfl, rfl, ?_, ?_⟩
  · show ((parse (jsOr (s.storage.getItem "user") "null")).bind fun _ => _).map _
      = ((parse (jsOr (s.storage.getItem "user") "null")).bind fun _ => _).map _
    cases parse (jsOr (s.storage.getItem "user") "null") with
    | error e => rfl
    | ok v =>
      show Except.ok (viewOf _).isDashboard = Except.ok (viewOf s).isDashboard
      rw [viewOf_isDashboard, viewOf_isDashboard]
      rfl
  · simp [effectAfter, setMessage, setPage, setUsername, setPassword]

/-! ## Add patient -/

/-- What a successful add-patient response does: the cache becomes the closure's `patients`
followed by the returned object, the three fields are emptied, the message is set. -/
theorem handleAddPatient_ok (c s : AppState) (p : Patient) :
    handleAddPatient c (Except.ok p) s = Except.ok
      { s with patients := c.patients ++ [p], firstName := "", lastName := "", dob := "",
               message := "Patient added!" } :=
  rfl

/-- C5 fails on the code: the form is submitted twice over an empty cache; the first response
puts its patient in the cache, the second response then replaces the cache by its own patient
alone, dropping the first. The same happens to a list loaded between submit and response. -/
theorem C5_stale_cache_drops_entries :
    (∃ s1 s2 : AppState,
      handleAddPatient janeForm (Except.ok (patient 1 "Jane" "Doe" "1990-01-01")) janeForm
        = Except.ok s1 ∧
      handleAddPatient janeForm (Except.ok (patient 2 "Jane" "Doe" "1990-01-01")) s1
        = Except.ok s2 ∧
      s1.patients = [patient 1 "Jane" "Doe" "1990-01-01"] ∧
      s2.patients = [patient 2 "Jane" "Doe" "1990-01-01"] ∧
      s2.patients ≠ s1.patients ++ [patient 2 "Jane" "Doe" "1990-01-01"]) ∧
    (∃ s1 s2 : AppState,
      loadPatients (Except.ok [patient 1 "Ann" "Lee" "", patient 2 "Bob" "Ray" ""]) janeForm
        = Except.ok s1 ∧
      handleAddPatient janeForm (Except.ok (patient 3 "Jane" "Doe" "1990-01-01")) s1
        = Except.ok s2 ∧
      s1.patients = [patient 1 "Ann" "Lee" "", patient 2 "Bob" "Ray" ""] ∧
      s2.patients = [patient 3 "Jane" "Doe" "1990-01-01"] ∧
      s2.patients ≠ s1.patients ++ [patient 3 "Jane" "Doe" "1990-01-01"]) := by
  refine ⟨⟨_, _, rfl, rfl, rfl, rfl, ?_⟩, ⟨_, _, rfl, rfl, rfl, rfl, ?_⟩⟩
  · intro h
    have hl := congrArg List.length h
    simp [handleAddPatient_ok, setPatients, setFirstName, setLastName, setDob, setMessage,
      janeForm, blank] at hl
  · intro h
    have hl := congrArg List.length h
    simp [setPatients, setFirstName, setLastName, setDob, setMessage, janeForm, blank] at hl

/-! ## Startup -/

/-- Startup when `JSON.parse` accepts the stored user: the initial state and the requests of
the token effect. -/
theorem launch_of_parse (parse : String → Except String JSVal) (storage : Storage) (v : JSVal)
    (h : parse (jsOr (storage.getItem "user") "null") = Except.ok v) :
    launch parse storage = Except.ok
      ({ page := "login", token := storage.getItem "token", user := v,
         username := "", password := "", role := "technician",
         firstName := "", lastName := "", dob := "",
         patients := [], message := "", storage := storage },
       tokenEffect (storage.getItem "token")) := by
  simp [launch, initialState, h, Except.bind]

/-- C6, as stated, fails: with the empty string stored under `token` a token is stored, yet
startup issues no request. -/
theorem C6_empty_stored_token_no_request :
    (Storage.empty.setItem "token" "").getItem "token" = some "" ∧
    (launch parseNull (Storage.empty.setItem "token" "")).map Prod.snd = Except.ok [] :=
  ⟨rfl, rfl⟩

/-- C6, amended: for every store whose `user` entry `JSON.parse` accepts (an absent or empty
entry is read as `null`): with no token stored the initial `page` is `login`, the login form is
rendered and startup issues no request; with a non-empty token stored startup issues exactly
one request, the GET of the patients endpoint, and its success with array `A` makes the cache
exactly `A`, whatever it held, without a further request; a stored empty token issues none. -/
theorem C6_launch (parse : String → Except String JSVal) (storage : Storage) (v : JSVal)
    (h : parse (jsOr (storage.getItem "user") "null") = Except.ok v) :
    (storage.getItem "token" = none → ∃ s : AppState,
      launch parse storage = Except.ok (s, []) ∧ s.page = "login" ∧
      render parse s = Except.ok (View.login "" "" "")) ∧
    (∀ t : String, storage.getItem "token" = some t → t ≠ "" → ∃ s : AppState,
      launch parse storage = Except.ok (s, [loadPatientsRequest]) ∧ s.token = some t) ∧
    (storage.getItem "token" = some "" → ∃ s : AppState,
      launch parse storage = Except.ok (s, [])) ∧
    loadPatientsRequest
      = { method := "GET", url := "http://localhost:8000/patients/", body := Body.none,
          headers := [] } ∧
    (∀ (s : AppState) (A : List Patient), ∃ s2 : AppState,
      loadPatients (Except.ok A) s = Except.ok s2 ∧ s2.patients = A ∧
      effectAfter s s2 = []) := by
  refine ⟨?_, ?_, ?_, by decide, ?_⟩
  · intro ht
    rw [launch_of_parse parse storage v h, ht]
    refine ⟨_, rfl, rfl, ?_⟩
    rw [render_of_parse parse _ v h]
    rfl
  · intro t ht hne
    have he : tokenEffect (some t) = [loadPatientsRequest] := by
      simp [tokenEffect, truthy, hne]
    rw [launch_of_parse parse storage v h, ht, he]
    exact ⟨_, rfl, rfl⟩
  · intro ht
    rw [launch_of_parse parse storage v h, ht]
    exact ⟨_, rfl⟩
  · intro s A
    exact ⟨_, rfl, rfl, by simp [effectAfter, setPatients]⟩

/-- C6, amended, at sample stores: the store holding token `abc`, and the empty store. -/
theorem C6_launch_witness :
    (∃ s : AppState, launch parseNull (Storage.empty.setItem "token" "abc")
      = Except.ok (s, [loadPatientsRequest]) ∧ s.token = some "abc") ∧
    (∃ s : AppState, launch parseNull Storage.empty = Except.ok (s, []) ∧ s.page = "login" ∧
      render parseNull s = Except.ok (View.login "" "" "")) :=
  ⟨(C6_launch parseNull (Storage.empty.setItem "token" "abc") JSVal.null rfl).2.1 "abc" rfl
      (by decide),
   (C6_launch parseNull Storage.empty JSVal.null rfl).1 rfl⟩

/-! ## Failure messages -/

/-- C7, as stated, fails: a failed login whose response carries the empty string as `detail`
shows the transport message behind the fixed text, not the (empty) detail. -/
theorem C7_empty_detail_shows_transport_message :
    (failureWith "" "Request failed with status code 400").detail = some "" ∧
    (handleLogin aliceForm (Except.error (failureWith "" "Request failed with status code 400"))
      aliceForm).map (fun s => s.message)
      = Except.ok "Login failed: Request failed with status code 400" :=
  ⟨rfl, rfl⟩

/-- C7, amended: a failed register, login or add-patient request that carries a non-empty
`detail` `d` shows `d` behind the fixed text ('Login failed: ' for login, 'Error: ' for
register and add patient); one that carries no detail, or an empty one, shows the transport
error's own message behind that text; a failed list-patients request shows exactly
'Error loading patients'. -/
theorem C7_failure_messages (c s : AppState) (err : AxiosError) :
    (∀ d : String, err.detail = some d → d ≠ "" →
      handleRegister c (Except.error err) s = Except.ok { s with message := "Error: " ++ d } ∧
      handleLogin c (Except.error err) s
        = Except.ok { s with message := "Login failed: " ++ d } ∧
      handleAddPatient c (Except.error err) s
        = Except.ok { s with message := "Error: " ++ d }) ∧
    (err.detail = none ∨ err.detail = some "" →
      handleRegister c (Except.error err) s
        = Except.ok { s with message := "Error: " ++ err.message } ∧
      handleLogin c (Except.error err) s
        = Except.ok { s with message := "Login failed: " ++ err.message } ∧
      handleAddPatient c (Except.error err) s
        = Except.ok { s with message := "Error: " ++ err.message }) ∧
    loadPatients (Except.error err) s
      = Except.ok { s with message := "Error loading patients" } := by
  refine ⟨?_, ?_, rfl⟩
  · intro d hd hne
    have hj : jsOr err.detail err.message = d := by rw [hd]; exact jsOr_of_nonempty d _ hne
    simp [handleRegister, handleLogin, handleAddPatient, tryCatch, Except.bind, hj, setMessage]
  · intro hd
    have hj : jsOr err.detail err.message = err.message := by
      rcases hd with hd | hd <;> simp [hd, jsOr]
    simp [handleRegister, handleLogin, handleAddPatient, tryCatch, Except.bind, hj, setMessage]

/-- C7, amended, at sample failures: a rejected login with the backend's detail, and a
transport failure without response. -/
theorem C7_failure_messages_witness :
    handleLogin aliceForm
      (Except.error (failureWith "Incorrect username or password" "Request failed")) aliceForm
      = Except.ok { aliceForm with message := "Login failed: Incorrect username or password" } ∧
    handleRegister aliceForm
      (Except.error { message := "Network Error", response := none }) aliceForm
      = Except.ok { aliceForm with message := "Error: Network Error" } :=
  ⟨((C7_failure_messages aliceForm aliceForm
      (failureWith "Incorrect username or password" "Request failed")).1
      "Incorrect username or password" rfl (by decide)).2.1,
   ((C7_failure_messages aliceForm aliceForm
      { message := "Network Error", response := none }).2.1 (Or.inl rfl)).1⟩

/-! ## Credentials after login -/

/-- A successful login leaves the username and password fields as it found them. -/
theorem handleLogin_ok_keeps_form (c s : AppState) (tk : String) :
    ∃ s1 : AppState, handleLogin c (Except.ok tk) s = Except.ok s1 ∧
      s1.username = s.username ∧ s1.password = s.password :=
  ⟨_, rfl, rfl, rfl⟩

/-- C9 fails on the code: after a successful login the username and password fields still hold
what was typed, and the login form shown after a logout is filled with them. -/
theorem C9_login_keeps_credentials :
    ∃ s1 : AppState, handleLogin aliceForm (Except.ok "abc") aliceForm = Except.ok s1 ∧
      s1.username = "alice" ∧ s1.password = "secret" ∧
      render parseNull (handleLogout s1)
        = Except.ok (View.login "alice" "secret" "Logged out") :=
  ⟨_, rfl, rfl, rfl, rfl⟩

/-! ## Decoding the login body -/

/-- The bytes of a concatenation are the bytes of its parts. -/
theorem utf8_append (a b : String) : utf8 (a ++ b) = utf8 a ++ utf8 b := by
  simp [utf8, String.toList, String.data_append]

/-- A byte of a character is the character itself (ASCII) or at least 128. -/
theorem utf8Char_ge (c : Char) (b : Nat) (hb : b ∈ utf8Char c) : b = c.toNat ∨ 128 ≤ b := by
  unfold utf8Char at hb
  simp only at hb
  split_ifs at hb <;> simp at hb <;> omega

/-- An ASCII byte occurs in the bytes of a string only as that character. -/
theorem not_mem_utf8 (u : String) (k : Nat) (hk : k < 128)
    (h : ∀ c ∈ u.toList, c.toNat ≠ k) : k ∉ utf8 u := by
  intro hmem
  simp only [utf8, List.mem_flatMap] at hmem
  obtain ⟨c, hc, hb⟩ := hmem
  rcases utf8Char_ge c k hb with h1 | h1
  · exact h c hc h1.symm
  · omega

/-- Percent-decoding leaves a sequence without `%` as it is. -/
theorem percentDecode_id (bs : List Nat) (h : 37 ∉ bs) : percentDecode bs = bs := by
  induction bs with
  | nil => rfl
  | cons b rest ih =>
    have hb : b ≠ 37 := fun e => h (by simp [e])
    have hr : 37 ∉ rest := fun e => h (by simp [e])
    have step : percentDecode (b :: rest) = b :: percentDecode rest := by
      rw [percentDecode.eq_def]
      split
      · simp at *
      · rename_i heq
        simp at heq
        exact absurd heq.1 hb
      · rename_i heq
        simp at heq
        obtain ⟨h1, h2⟩ := heq
        subst h1 h2
        rfl
    rw [step, ih hr]

/-- Without `+` nothing is replaced. -/
theorem plusToSpace_id (bs : List Nat) (h : 43 ∉ bs) : plusToSpace bs = bs := by
  induction bs with
  | nil => rfl
  | cons b rest ih =>
    have hb : b ≠ 43 := fun e => h (by simp [e])
    have hr : 43 ∉ rest := fun e => h (by simp [e])
    simp [plusToSpace, hb] at ih ⊢
    exact ih hr

/-- A sequence without the separator is one piece. -/
theorem splitOnByte_none (sep : Nat) (bs : List Nat) (h : sep ∉ bs) :
    splitOnByte sep bs = [bs] := by
  induction bs with
  | nil => rfl
  | cons b rest ih =>
    have hb : b ≠ sep := fun e => h (by simp [e])
    have hr : sep ∉ rest := fun e => h (by simp [e])
    simp [splitOnByte, hb, ih hr]

/-- The first piece ends at the first separator. -/
theorem splitOnByte_append (sep : Nat) (a b : List Nat) (h : sep ∉ a) :
    splitOnByte sep (a ++ sep :: b) = a :: splitOnByte sep b := by
  induction a with
  | nil => simp [splitOnByte]
  | cons x rest ih =>
    have hb : x ≠ sep := fun e => h (by simp [e])
    have hr : sep ∉ rest := fun e => h (by simp [e])
    simp [splitOnByte, hb, ih hr]


/-- What the login body does decode to: when neither the username nor the password contains
`&`, `+` or `%`, the body decodes to exactly the two fields `username` and `password` with
the typed values (an `=` or a space in a value is harmless). -/
theorem formDecode_loginBody (u p : String)
    (hu : ∀ c ∈ u.toList, c.toNat ≠ 38 ∧ c.toNat ≠ 43 ∧ c.toNat ≠ 37)
    (hp : ∀ c ∈ p.toList, c.toNat ≠ 38 ∧ c.toNat ≠ 43 ∧ c.toNat ≠ 37) :
    formDecode (utf8 (loginBody u p))
      = [(utf8 "username", utf8 u), (utf8 "password", utf8 p)] := by
  have hu38 : 38 ∉ utf8 u := not_mem_utf8 u 38 (by decide) fun c hc => (hu c hc).1
  have hu43 : 43 ∉ utf8 u := not_mem_utf8 u 43 (by decide) fun c hc => (hu c hc).2.1
  have hu37 : 37 ∉ utf8 u := not_mem_utf8 u 37 (by decide) fun c hc => (hu c hc).2.2
  have hp38 : 38 ∉ utf8 p := not_mem_utf8 p 38 (by decide) fun c hc => (hp c hc).1
  have hp43 : 43 ∉ utf8 p := not_mem_utf8 p 43 (by decide) fun c hc => (hp c hc).2.1
  have hp37 : 37 ∉ utf8 p := not_mem_utf8 p 37 (by decide) fun c hc => (hp c hc).2.2
  have hbody : utf8 (loginBody u p)
      = ([117, 115, 101, 114, 110, 97, 109, 101, 61] ++ utf8 u)
        ++ 38 :: ([112, 97, 115, 115, 119, 111, 114, 100, 61] ++ utf8 p) := by
    have e1 : utf8 "username=" = [117, 115, 101, 114, 110, 97, 109, 101, 61] := by decide
    have e2 : utf8 "&password=" = 38 :: [112, 97, 115, 115, 119, 111, 114, 100, 61] := by decide
    simp only [loginBody, utf8_append, e1, e2, List.append_assoc, List.cons_append]
  have hn : utf8 "username" = [117, 115, 101, 114, 110, 97, 109, 101] := by decide
  have hpw : utf8 "password" = [112, 97, 115, 115, 119, 111, 114, 100] := by decide
  have hA : 38 ∉ [117, 115, 101, 114, 110, 97, 109, 101, 61] ++ utf8 u := by
    simp [hu38]
  have hB : 38 ∉ [112, 97, 115, 115, 119, 111, 114, 100, 61] ++ utf8 p := by
    simp [hp38]
  rw [hbody, formDecode, splitOnByte_append 38 _ _ hA, splitOnByte_none 38 _ hB, hn, hpw]
  simp [decodeField, List.takeWhile, List.dropWhile, plusToSpace_id _ hu43,
    plusToSpace_id _ hp43, percentDecode_id _ hu37, percentDecode_id _ hp37]
  exact ⟨by decide, by decide⟩

/-! ## Login body -/

/-- C10 fails on the code: for username `a&b` and password `p` the body sent is
`username=a&b&password=p`, which decodes to three fields, `username` with value `a`, `b` with
the empty value, and `password`; and a `+` in the password decodes to a space. -/
theorem C10_login_body_not_encoded :
    (handleLoginRequest { blank with username := "a&b", password := "p" }).body
      = Body.text "username=a&b&password=p" ∧
    formDecode (utf8 (loginBody "a&b" "p"))
      = [(utf8 "username", utf8 "a"), (utf8 "b", []), (utf8 "password", utf8 "p")] ∧
    formDecode (utf8 (loginBody "a&b" "p"))
      ≠ [(utf8 "username", utf8 "a&b"), (utf8 "password", utf8 "p")] ∧
    formDecode (utf8 (loginBody "alice" "p+q"))
      = [(utf8 "username", utf8 "alice"), (utf8 "password", utf8 "p q")] ∧
    formDecode (utf8 (loginBody "alice" "100%25"))
      = [(utf8 "username", utf8 "alice"), (utf8 "password", utf8 "100%")] := by
  refine ⟨by decide, by decide, by decide, by decide, by decide⟩

end LIS
